import Mathlib

/-
Verification of the JobAIApplierMVP browser client.

The repository ships two parallel copies of the front-end script:
  - src/unnamed/part_000   ("Variant A", template mode: fetch resume text and a
    cover-letter template, generate only an email subject, dispatch mail)
  - src/frontend/script.js ("Variant B", generative mode: generate a full cover
    letter from a hard-coded resume text, dispatch mail with a template subject)

The orchestration pipeline (sendJobApplication), the search error flow
(searchJobs / getErrorMessage) and the result renderer (displayJobResults) are
embedded below as pure functions.  Network interaction is modelled by an
environment value that fixes, for each network step, how the underlying fetch
behaves: the promise may reject (a thrown error with a message), or resolve to
a response with an ok flag, a numeric status, a status text, a raw body text,
and a JSON body that either parses to a payload or fails to parse (a thrown
error with a message).  Each run produces the ordered trace of observable
events (button state changes, network requests, alert dialogs) together with
the result of the try-block, from which the outcome classification is read.
-/

namespace JobAI

/-- Checks whether pat occurs at the head of s, character by character; a
building block for the JavaScript String.prototype.includes model. -/
def subAt : List Char → List Char → Bool
  | [], _ => true
  | _ :: _, [] => false
  | a :: as, b :: bs => a == b && subAt as bs

/-- Checks whether pat occurs contiguously anywhere inside s. -/
def hasSub (pat : List Char) (s : List Char) : Bool :=
  match s with
  | [] => subAt pat []
  | c :: t => subAt pat (c :: t) || hasSub pat t

/-- Model of the JavaScript call s.includes(pat): true when pat occurs as a
contiguous substring of s. -/
def strIncludes (s pat : String) : Bool :=
  hasSub pat.data s.data

/-- Drops leading whitespace characters; used to model the JavaScript
String.prototype.trim applied to each split email address. -/
def dropLeadingWS : List Char → List Char
  | [] => []
  | c :: rest => if c.isWhitespace then dropLeadingWS rest else c :: rest

/-- Removes leading and trailing whitespace from a character list, modelling
the JavaScript String.prototype.trim. -/
def trimChars (l : List Char) : List Char :=
  dropLeadingWS ((dropLeadingWS l.reverse).reverse)

/-- Model of the JavaScript call s.split(',') : splits on every comma, keeping
empty segments, so the empty string yields one empty segment. -/
def splitComma : List Char → List (List Char)
  | [] => [[]]
  | c :: rest =>
    let r := splitComma rest
    if c == ',' then [] :: r
    else
      match r with
      | [] => [[c]]
      | h :: t => (c :: h) :: t

/-- Recipient-address splitting used by both variants of sendJobApplication:
toEmails.split(',').map(email => email.trim())
(src/unnamed/part_000 line 274, src/frontend/script.js line 389). -/
def splitEmails (toEmails : String) : List String :=
  (splitComma toEmails.data).map (fun l => String.mk (trimChars l))

/-- Model of the JavaScript expression a || b for strings, where a may be
absent (undefined) or empty (falsy): the right operand is used exactly when
the left is missing or the empty string. -/
def jsOrStr (a : Option String) (b : String) : String :=
  match a with
  | some s => if s == "" then b else s
  | none => b

/-- Outcome of awaiting response.json(): either a parsed payload or a thrown
parse error carrying the message of the raised exception. -/
inductive JsonBody (α : Type) where
  | parsed (val : α)
  | malformed (errMsg : String)

/-- Outcome of one fetch call: the promise rejects with an error message, or
resolves to a response carrying the ok flag, numeric status, status text, the
raw body text (as returned by response.text()) and the JSON body. -/
inductive FetchOutcome (α : Type) where
  | netError (errMsg : String)
  | response (ok : Bool) (status : Nat) (statusText : String)
      (rawText : String) (body : JsonBody α)

/-- Payload of a successful /get_file_text response. -/
structure FilePayload where
  text : String

/-- Payload of a successful /generate_subject response. -/
structure SubjectPayload where
  subject : String

/-- Payload of a /generate_cover response; the cover_letter field may be
absent from the parsed JSON. -/
structure CoverPayload where
  cover_letter : Option String

/-- Parsed payload of a /send_email response.  Fields that the script reads
with JavaScript truthiness semantics are Options: a missing field behaves as
a falsy value. -/
structure EmailPayload where
  success : Option Bool
  demo_mode : Option Bool
  subject : String
  attachment : String
  detail : Option String
  message : Option String

/-- Pipeline phase at which a failure occurred (spec section 3,
ApplicationOutcome.Failure.stage).  Each throw site in the embedded code is
tagged with the stage of the step in progress when the exception was raised. -/
inductive Stage where
  | DocumentFetch
  | ContentGeneration
  | Dispatch
deriving DecidableEq

/-- Sub-kind of a dispatch failure (spec section 7): the authentication branch
or the generic branch of the send_email error handling. -/
inductive DispatchKind where
  | AuthFailure
  | GenericFailure
deriving DecidableEq

/-- A failed application attempt: the stage in progress when the exception was
thrown, the dispatch sub-kind when the dispatch error branch classified it,
and the message of the thrown Error object. -/
structure Failure where
  stage : Stage
  kind : Option DispatchKind
  msg : String
deriving DecidableEq

/-- A successful application attempt, carrying the demo_mode flag and the
subject and attachment echoed by the backend. -/
structure SendSuccess where
  demoMode : Bool
  subject : String
  attachment : String
deriving DecidableEq

/-- One network request issued by the pipeline, with the data the script puts
into the request. -/
inductive NetRequest where
  | getFileText (filename : String)
  | generateSubject (job_title company cover_letter_content job_description : String)
  | generateCover (job_title company resume_text : String)
  | sendEmail (to_emails : List String) (subject body resume_file : String)
deriving DecidableEq

/-- Observable event of one application attempt, in program order: the trigger
button being disabled (with the new label), a network request being issued, an
alert dialog being shown, the trigger button being re-enabled (with the
restored label). -/
inductive Event where
  | buttonDisabled (label : String)
  | request (req : NetRequest)
  | alertShown (msg : String)
  | buttonEnabled (label : String)
deriving DecidableEq

/-- True for the two button-state events. -/
def isButtonEvent : Event → Bool
  | .buttonDisabled _ => true
  | .buttonEnabled _ => true
  | _ => false

/-- True for network-request events. -/
def isRequestEvent : Event → Bool
  | .request _ => true
  | _ => false

/-- True for document-fetch (/get_file_text) request events. -/
def isFileTextRequest : Event → Bool
  | .request (.getFileText _) => true
  | _ => false

/-- Extracts from a trace the (job_title, company, resume_text) data of every
/generate_cover request, in order. -/
def coverRequests : List Event → List (String × String × String) :=
  List.filterMap fun e =>
    match e with
    | .request (.generateCover jt c rt) => some (jt, c, rt)
    | _ => none

/-- Extracts from a trace the (to_emails, subject, body, resume_file) data of
every /send_email request, in order. -/
def sentRequests : List Event → List (List String × String × String × String) :=
  List.filterMap fun e =>
    match e with
    | .request (.sendEmail tos s b f) => some (tos, s, b, f)
    | _ => none

/-- Sequencing of two awaited steps inside the try block: the second step runs
only when the first did not throw, and the event traces concatenate. -/
def seqStep {α β : Type} (a : List Event × Except Failure α)
    (f : α → List Event × Except Failure β) : List Event × Except Failure β :=
  match a.2 with
  | .error e => (a.1, .error e)
  | .ok x => (a.1 ++ (f x).1, (f x).2)

/-- The environment of one Variant A attempt: the behaviour of the four
network calls the pipeline can make, in pipeline order. -/
structure EnvA where
  resume : FetchOutcome FilePayload
  cover : FetchOutcome FilePayload
  subject : FetchOutcome SubjectPayload
  email : FetchOutcome EmailPayload

/-- The environment of one Variant B attempt: the behaviour of the two
network calls the pipeline can make, in pipeline order. -/
structure EnvB where
  cover : FetchOutcome CoverPayload
  email : FetchOutcome EmailPayload

/-- Result of one full sendJobApplication run: the ordered event trace, and
the result of the try block (the thrown failure, or the success data). -/
structure RunResult where
  events : List Event
  result : Except Failure SendSuccess

/-- Document fetch step of Variant A (src/unnamed/part_000 lines 226-240):
fetch get_file_text for the given filename; on a non-ok response throw an
Error whose message is the given prefix followed by the status text; otherwise
await response.json(). -/
def fetchFileStep (filename failPre : String) (out : FetchOutcome FilePayload) :
    List Event × Except Failure FilePayload :=
  ([Event.request (.getFileText filename)],
    match out with
    | .netError m => .error ⟨.DocumentFetch, none, m⟩
    | .response ok _ statusText _ body =>
      if ok then
        match body with
        | .parsed p => .ok p
        | .malformed m => .error ⟨.DocumentFetch, none, m⟩
      else .error ⟨.DocumentFetch, none, failPre ++ statusText⟩)

/-- Subject generation step of Variant A (src/unnamed/part_000 lines 242-263):
POST generate_subject with the job title, company, cover letter content and a
synthesized job description; on a non-ok response throw; otherwise await
response.json(). -/
def generateSubjectStep (jobTitle company coverText : String)
    (out : FetchOutcome SubjectPayload) :
    List Event × Except Failure SubjectPayload :=
  ([Event.request (.generateSubject jobTitle company coverText
      ("Looking for " ++ jobTitle ++ " position at " ++ company))],
    match out with
    | .netError m => .error ⟨.ContentGeneration, none, m⟩
    | .response ok _ statusText _ body =>
      if ok then
        match body with
        | .parsed p => .ok p
        | .malformed m => .error ⟨.ContentGeneration, none, m⟩
      else .error ⟨.ContentGeneration, none, "Subject generation failed: " ++ statusText⟩)

/-- Hard-coded resume text sent by Variant B to /generate_cover
(src/frontend/script.js line 363). -/
def hardCodedResumeText : String :=
  "Experienced professional with strong skills in project management, team leadership, and strategic planning. Proven track record in delivering successful projects and driving business growth."

/-- Hard-coded resume file path used by Variant B (src/frontend/script.js
line 381). -/
def resumeFilePath : String :=
  "G:\\My Drive\\Resume & Documents\\Resume\\Resume\\Product Management\\Resume.pdf"

/-- Error message raised by the JavaScript runtime when coverData.cover_letter
is absent and the script reads coverLetter.length (src/frontend/script.js
line 374). -/
def undefinedLengthMessage : String :=
  "Cannot read properties of undefined (reading 'length')"

/-- Cover letter generation step of Variant B (src/frontend/script.js lines
354-374): POST generate_cover with the hard-coded resume text; on a non-ok
response await response.text() and throw an Error naming the status and the
raw body; otherwise await response.json() and read cover_letter. -/
def generateCoverStep (jobTitle company : String) (out : FetchOutcome CoverPayload) :
    List Event × Except Failure String :=
  ([Event.request (.generateCover jobTitle company hardCodedResumeText)],
    match out with
    | .netError m => .error ⟨.ContentGeneration, none, m⟩
    | .response ok status _ rawText body =>
      if ok then
        match body with
        | .parsed p =>
          match p.cover_letter with
          | some cl => .ok cl
          | none => .error ⟨.ContentGeneration, none, undefinedLengthMessage⟩
        | .malformed m => .error ⟨.ContentGeneration, none, m⟩
      else .error ⟨.ContentGeneration, none,
        "Cover letter generation failed (" ++ toString status ++ "): " ++ rawText⟩)

/-- The errorDetail computed by both dispatch error branches:
emailData.detail || emailData.message || 'Unknown error occurred'. -/
def errorDetailOf (d : EmailPayload) : String :=
  jsOrStr d.detail (jsOrStr d.message "Unknown error occurred")

/-- Authentication-failure test of Variant A (src/unnamed/part_000 line 296). -/
def authCondA (errorDetail : String) : Bool :=
  strIncludes errorDetail "authentication failed"

/-- Authentication-failure test of Variant B (src/frontend/script.js line 412). -/
def authCondB (errorDetail : String) : Bool :=
  strIncludes errorDetail "authentication failed" || strIncludes errorDetail "BadCredentials"

/-- Success alert of Variant A (src/unnamed/part_000 line 290). -/
def successAlertA (toEmails : String) (d : EmailPayload) : String :=
  let demo := d.demo_mode == some true
  let modeText := if demo then " (Demo Mode)" else ""
  let statusText := if demo then "prepared" else "sent"
  "✅ Application " ++ statusText ++ " successfully" ++ modeText ++ "!\n\n📧 To: " ++
    toEmails ++ "\n📧 Subject: " ++ d.subject ++ "\n📄 Resume: Attached as " ++
    d.attachment ++ "\n📄 Cover Letter: Used from uploads/cover_template.docx\n\n" ++
    (if demo then "Note: Configure Gmail credentials in .env to enable real email sending." else "")

/-- Success alert of Variant B (src/frontend/script.js line 405). -/
def successAlertB (toEmails : String) (d : EmailPayload) : String :=
  let demo := d.demo_mode == some true
  let modeText := if demo then " (Demo Mode)" else ""
  let statusText := if demo then "prepared" else "sent"
  "✅ Application " ++ statusText ++ " successfully" ++ modeText ++ "!\n\n📧 To: " ++
    toEmails ++ "\n📧 Subject: " ++ d.subject ++ "\n📄 Attachment: " ++ d.attachment ++
    "\n\n" ++
    (if demo then "Note: Configure Gmail credentials in .env to enable real email sending." else "")

/-- Authentication-failure alert of Variant A (src/unnamed/part_000 line 297). -/
def authAlertA (errorDetail : String) : String :=
  "❌ Gmail Authentication Failed!\n\n" ++ errorDetail ++
    "\n\n📧 Please check your Gmail credentials in .env file."

/-- Authentication-failure alert of Variant B (src/frontend/script.js line 413). -/
def authAlertB (errorDetail : String) : String :=
  "❌ Gmail Authentication Failed!\n\n" ++ errorDetail ++
    "\n\n📧 This means the Gmail credentials in .env need to be updated.\n\n🔧 Required Steps:\n1. Enable 2FA on your Gmail account\n2. Generate App Password: https://myaccount.google.com/apppasswords\n3. Update GMAIL_APP_PASSWORD in .env file"

/-- Dispatch step of Variant A (src/unnamed/part_000 lines 268-303): POST
send_email, await response.json() unconditionally, then declare success only
when the response is ok and emailData.success is truthy; otherwise alert the
authentication-specific or generic dispatch message and throw. -/
def sendEmailStepA (toEmails emailSubject coverText : String)
    (out : FetchOutcome EmailPayload) :
    List Event × Except Failure SendSuccess :=
  let req : Event := .request (.sendEmail (splitEmails toEmails) emailSubject coverText
    "uploads/resume.pdf")
  match out with
  | .netError m => ([req], .error ⟨.Dispatch, none, m⟩)
  | .response ok _ _ _ body =>
    match body with
    | .malformed m => ([req], .error ⟨.Dispatch, none, m⟩)
    | .parsed d =>
      if ok && (d.success == some true) then
        ([req, .alertShown (successAlertA toEmails d)],
          .ok ⟨d.demo_mode == some true, d.subject, d.attachment⟩)
      else
        let errorDetail := errorDetailOf d
        if authCondA errorDetail then
          ([req, .alertShown (authAlertA errorDetail)],
            .error ⟨.Dispatch, some .AuthFailure, "Email sending failed: " ++ errorDetail⟩)
        else
          ([req, .alertShown ("❌ Email sending failed: " ++ errorDetail)],
            .error ⟨.Dispatch, some .GenericFailure, "Email sending failed: " ++ errorDetail⟩)

/-- Dispatch step of Variant B (src/frontend/script.js lines 383-419): same
structure as Variant A with the generative-mode subject and body, the
hard-coded resume file path, Variant B's authentication test and alerts. -/
def sendEmailStepB (jobTitle company toEmails coverLetter : String)
    (out : FetchOutcome EmailPayload) :
    List Event × Except Failure SendSuccess :=
  let req : Event := .request (.sendEmail (splitEmails toEmails)
    ("Job Application: " ++ jobTitle ++ " at " ++ company) coverLetter resumeFilePath)
  match out with
  | .netError m => ([req], .error ⟨.Dispatch, none, m⟩)
  | .response ok _ _ _ body =>
    match body with
    | .malformed m => ([req], .error ⟨.Dispatch, none, m⟩)
    | .parsed d =>
      if ok && (d.success == some true) then
        ([req, .alertShown (successAlertB toEmails d)],
          .ok ⟨d.demo_mode == some true, d.subject, d.attachment⟩)
      else
        let errorDetail := errorDetailOf d
        if authCondB errorDetail then
          ([req, .alertShown (authAlertB errorDetail)],
            .error ⟨.Dispatch, some .AuthFailure, "Email sending failed: " ++ errorDetail⟩)
        else
          ([req, .alertShown ("❌ Email sending failed: " ++ errorDetail)],
            .error ⟨.Dispatch, some .GenericFailure, "Email sending failed: " ++ errorDetail⟩)

/-- Try-block body of Variant A: the four awaited steps in sequence, each
step running only when the previous one did not throw. -/
def tryBodyA (jobTitle company toEmails : String) (env : EnvA) :
    List Event × Except Failure SendSuccess :=
  seqStep (fetchFileStep "resume.pdf" "Resume fetch failed: " env.resume) (fun _resumeData =>
  seqStep (fetchFileStep "cover_template.docx" "Cover letter fetch failed: " env.cover)
    (fun coverData =>
  seqStep (generateSubjectStep jobTitle company coverData.text env.subject) (fun subjectData =>
  sendEmailStepA toEmails subjectData.subject coverData.text env.email)))

/-- Try-block body of Variant B: the two awaited steps in sequence. -/
def tryBodyB (jobTitle company toEmails : String) (env : EnvB) :
    List Event × Except Failure SendSuccess :=
  seqStep (generateCoverStep jobTitle company env.cover) (fun coverLetter =>
  sendEmailStepB jobTitle company toEmails coverLetter env.email)

/-- Catch-block classifier of Variant A (src/unnamed/part_000 lines 308-321):
builds the user-facing message by substring matching on the thrown message. -/
def catchMessageA (msg : String) : String :=
  "Failed to send job application. " ++
    (if strIncludes msg "Resume" then "Could not fetch resume."
     else if strIncludes msg "Cover" then "Could not fetch cover letter."
     else if strIncludes msg "Subject" then "Could not generate email subject."
     else if strIncludes msg "Email" then "Could not send email."
     else if strIncludes msg "fetch" then "Network error. Please check if the backend server is running."
     else msg)

/-- Catch-block classifier of Variant B (src/frontend/script.js lines
425-434). -/
def catchMessageB (msg : String) : String :=
  "Failed to send job application. " ++
    (if strIncludes msg "Cover letter" then "Could not generate cover letter."
     else if strIncludes msg "Email" then "Could not send email."
     else if strIncludes msg "fetch" then "Network error. Please check if the backend server is running."
     else msg)

/-- Events emitted at the top of the try block: when a trigger button was
passed, it is disabled and its label set to the sending indicator. -/
def startEvents : Option String → List Event
  | some _ => [Event.buttonDisabled "⏳ Sending..."]
  | none => []

/-- Events emitted by the finally block: when a trigger button was passed, it
is re-enabled and its label restored to the pre-attempt text. -/
def finishEvents : Option String → List Event
  | some label => [Event.buttonEnabled label]
  | none => []

/-- Events emitted by the catch block of Variant A: one alert with the
classified message when the try block threw, nothing otherwise. -/
def catchEventsA : Except Failure SendSuccess → List Event
  | .ok _ => []
  | .error f => [Event.alertShown ("❌ " ++ catchMessageA f.msg)]

/-- Events emitted by the catch block of Variant B. -/
def catchEventsB : Except Failure SendSuccess → List Event
  | .ok _ => []
  | .error f => [Event.alertShown ("❌ " ++ catchMessageB f.msg)]

/-- One full Variant A run of sendJobApplication (src/unnamed/part_000 lines
211-331).  The button argument is the trigger element's pre-attempt label, or
none when no element was passed; the environment fixes the network behaviour. -/
def sendJobApplicationA (jobTitle company toEmails : String) (button : Option String)
    (env : EnvA) : RunResult :=
  let body := tryBodyA jobTitle company toEmails env
  { events := startEvents button ++ body.1 ++ catchEventsA body.2 ++ finishEvents button
    result := body.2 }

/-- One full Variant B run of sendJobApplication (src/frontend/script.js lines
340-444). -/
def sendJobApplicationB (jobTitle company toEmails : String) (button : Option String)
    (env : EnvB) : RunResult :=
  let body := tryBodyB jobTitle company toEmails env
  { events := startEvents button ++ body.1 ++ catchEventsB body.2 ++ finishEvents button
    result := body.2 }

/-- Backend base URL of src/frontend/script.js (line 23), interpolated into
the network-error message of getErrorMessage. -/
def API_BASE_URL : String :=
  "http://127.0.0.1:8002"

/-- Error body of a failed /search_jobs response, best-effort parsed for a
detail field. -/
structure SearchErrorBody where
  detail : Option String

/-- Message of the Error thrown by searchJobs on a non-ok response
(src/frontend/script.js lines 122-135): start from HTTP status and status
text, and replace it with the body's detail field when that parses and is
truthy. -/
def searchThrownMessage (status : Nat) (statusText : String)
    (body : JsonBody SearchErrorBody) : String :=
  let base := "HTTP " ++ toString status ++ ": " ++ statusText
  match body with
  | .malformed _ => base
  | .parsed b =>
    match b.detail with
    | some d => if d == "" then base else d
    | none => base

/-- True when a search error body supplies no truthy detail field, i.e. the
body failed to parse, has no detail field, or has an empty detail string; the
condition under which searchJobs keeps the HTTP-status message.  Used to state
the amended form of the 422 classification property. -/
def noTruthyDetail : JsonBody SearchErrorBody → Bool
  | .malformed _ => true
  | .parsed b =>
    match b.detail with
    | none => true
    | some d => d == ""

/-- The getErrorMessage classifier of the search flow (src/frontend/script.js
lines 257-282): ordered substring matching on the thrown message. -/
def getErrorMessage (rawMessage : String) : String :=
  let message := if rawMessage == "" then "An unexpected error occurred. Please try again."
    else rawMessage
  if strIncludes message "Failed to fetch" || strIncludes message "NetworkError" ||
      strIncludes message "CORS" then
    "Cannot connect to the backend server. Make sure the server is running on " ++ API_BASE_URL
  else if strIncludes message "timeout" then
    "Request timed out. The AI is taking longer than expected to generate jobs."
  else if strIncludes message "422" || strIncludes message "Unprocessable" then
    "Please check your input data. Job title and location are required fields."
  else if strIncludes message "500" || strIncludes message "API key" then
    "Backend configuration issue. Please check if the Gemini API key is properly configured."
  else message

/-- One job listing as produced by the search step (spec section 3). -/
structure JobListing where
  company : String
  title : String
  description : String
  emails : String
  phone : String
deriving DecidableEq

/-- One row of the rendered results table: either a job row carrying the
listing's fields, or the single no-results placeholder row. -/
inductive RenderedRow where
  | jobRow (company title description emails phone : String)
  | placeholderRow
deriving DecidableEq

/-- The job row built by createJobRow for one listing. -/
def jobRowOf (j : JobListing) : RenderedRow :=
  .jobRow j.company j.title j.description j.emails j.phone

/-- True for the placeholder row. -/
def isPlaceholderRow : RenderedRow → Bool
  | .placeholderRow => true
  | _ => false

/-- The result renderer displayJobResults (src/frontend/script.js lines
147-163, identical in src/unnamed/part_000 lines 153-169): the table body is
cleared and rebuilt from scratch, so the function returns the complete new row
list; a missing or empty listing sequence yields the single placeholder row,
otherwise one job row per listing in input order. -/
def displayJobResults (jobs : Option (List JobListing)) : List RenderedRow :=
  match jobs with
  | none => [.placeholderRow]
  | some js =>
    if js.length = 0 then [.placeholderRow]
    else js.map jobRowOf

/-- True for results of the try block that are a success. -/
def isOkResult : Except Failure SendSuccess → Bool
  | .ok _ => true
  | .error _ => false

/-- Stage of the failure carried by a try-block result, none on success. -/
def resStage : Except Failure SendSuccess → Option Stage
  | .ok _ => none
  | .error f => some f.stage

theorem subAt_append (p l m : List Char) (h : subAt p l = true) :
    subAt p (l ++ m) = true := by
  induction p generalizing l with
  | nil => simp [subAt]
  | cons a as ih =>
    cases l with
    | nil => simp [subAt] at h
    | cons b bs =>
      simp only [subAt, Bool.and_eq_true] at h ⊢
      exact ⟨h.1, ih bs h.2⟩

theorem hasSub_append_left (p l m : List Char) (h : hasSub p l = true) :
    hasSub p (l ++ m) = true := by
  induction l with
  | nil =>
    simp only [hasSub] at h
    cases p with
    | nil => cases m <;> simp [hasSub, subAt]
    | cons a as => simp [subAt] at h
  | cons c t ih =>
    simp only [hasSub, Bool.or_eq_true] at h
    rcases h with h | h
    · simp only [List.cons_append, hasSub, Bool.or_eq_true]
      exact Or.inl (subAt_append _ _ _ h)
    · simp only [List.cons_append, hasSub, Bool.or_eq_true]
      exact Or.inr (ih h)

theorem hasSub_append_right (p l m : List Char) (h : hasSub p m = true) :
    hasSub p (l ++ m) = true := by
  induction l with
  | nil => simpa using h
  | cons c t ih =>
    simp only [List.cons_append, hasSub, Bool.or_eq_true]
    exact Or.inr ih

theorem strIncludes_append_left (s t pat : String) (h : strIncludes s pat = true) :
    strIncludes (s ++ t) pat = true :=
  hasSub_append_left pat.data s.data t.data h

theorem strIncludes_append_right (s t pat : String) (h : strIncludes t pat = true) :
    strIncludes (s ++ t) pat = true :=
  hasSub_append_right pat.data s.data t.data h

theorem seqStep_fst {α β : Type} (a : List Event × Except Failure α)
    (f : α → List Event × Except Failure β) :
    (seqStep a f).1 = a.1 ++ (match a.2 with | .error _ => [] | .ok x => (f x).1) := by
  cases h : a.2 <;> simp [seqStep, h]

theorem seqStep_snd {α β : Type} (a : List Event × Except Failure α)
    (f : α → List Event × Except Failure β) :
    (seqStep a f).2 = (match a.2 with | .error e => .error e | .ok x => (f x).2) := by
  cases h : a.2 <;> simp [seqStep, h]

theorem seqStep_filter_nil {α β : Type} (p : Event → Bool)
    (a : List Event × Except Failure α) (f : α → List Event × Except Failure β)
    (ha : a.1.filter p = []) (hf : ∀ x, (f x).1.filter p = []) :
    (seqStep a f).1.filter p = [] := by
  rw [seqStep_fst, List.filter_append, ha]
  cases h : a.2 <;> simp [hf]

theorem sendEmailStepA_filter_button (te s c : String) (out : FetchOutcome EmailPayload) :
    (sendEmailStepA te s c out).1.filter isButtonEvent = [] := by
  rcases out with m | ⟨ok, st, stx, raw, d | m⟩ <;>
    simp only [sendEmailStepA] <;>
    first
      | rfl
      | (split <;> [skip; split] <;> simp [List.filter, isButtonEvent])

theorem sendEmailStepB_filter_button (jt co te cl : String) (out : FetchOutcome EmailPayload) :
    (sendEmailStepB jt co te cl out).1.filter isButtonEvent = [] := by
  rcases out with m | ⟨ok, st, stx, raw, d | m⟩ <;>
    simp only [sendEmailStepB] <;>
    first
      | rfl
      | (split <;> [skip; split] <;> simp [List.filter, isButtonEvent])

theorem tryBodyA_filter_button (jt co te : String) (env : EnvA) :
    (tryBodyA jt co te env).1.filter isButtonEvent = [] := by
  unfold tryBodyA
  apply seqStep_filter_nil
  · rfl
  intro x
  apply seqStep_filter_nil
  · rfl
  intro y
  apply seqStep_filter_nil
  · rfl
  intro z
  exact sendEmailStepA_filter_button _ _ _ _

theorem tryBodyB_filter_button (jt co te : String) (env : EnvB) :
    (tryBodyB jt co te env).1.filter isButtonEvent = [] := by
  unfold tryBodyB
  apply seqStep_filter_nil
  · rfl
  intro x
  exact sendEmailStepB_filter_button _ _ _ _ _

theorem getLast?_cons_append_append {α : Type _} (x y : α) (l1 l2 : List α) :
    (x :: (l1 ++ (l2 ++ [y]))).getLast? = some y := by
  rw [show x :: (l1 ++ (l2 ++ [y])) = (x :: (l1 ++ l2)) ++ [y] by simp]
  exact List.getLast?_concat _

theorem catchEventsA_filter_button (r : Except Failure SendSuccess) :
    (catchEventsA r).filter isButtonEvent = [] := by
  cases r <;> rfl

theorem catchEventsB_filter_button (r : Except Failure SendSuccess) :
    (catchEventsB r).filter isButtonEvent = [] := by
  cases r <;> rfl

/-- C1: for every application attempt in both variants and every combination
of step successes, step failures and mid-sequence exceptions, when a trigger
element is supplied it is disabled with the sending label as the very first
event (hence before any network step), the only button events of the whole
trace are that disable and a single re-enable restoring the pre-attempt label,
and the re-enable is the final event of the attempt. -/
theorem c1_trigger_control_lifecycle (jt co te label : String) (envA : EnvA) (envB : EnvB) :
    (let tr := (sendJobApplicationA jt co te (some label) envA).events
     tr.head? = some (Event.buttonDisabled "⏳ Sending...") ∧
     tr.filter isButtonEvent =
       [Event.buttonDisabled "⏳ Sending...", Event.buttonEnabled label] ∧
     tr.getLast? = some (Event.buttonEnabled label)) ∧
    (let tr := (sendJobApplicationB jt co te (some label) envB).events
     tr.head? = some (Event.buttonDisabled "⏳ Sending...") ∧
     tr.filter isButtonEvent =
       [Event.buttonDisabled "⏳ Sending...", Event.buttonEnabled label] ∧
     tr.getLast? = some (Event.buttonEnabled label)) := by
  constructor
  · refine ⟨?_, ?_, ?_⟩
    · simp [sendJobApplicationA, startEvents]
    · simp [sendJobApplicationA, startEvents, finishEvents, List.filter_append,
        tryBodyA_filter_button, catchEventsA_filter_button, List.filter, isButtonEvent]
    · simp [sendJobApplicationA, startEvents, finishEvents,
        getLast?_cons_append_append]
  · refine ⟨?_, ?_, ?_⟩
    · simp [sendJobApplicationB, startEvents]
    · simp [sendJobApplicationB, startEvents, finishEvents, List.filter_append,
        tryBodyB_filter_button, catchEventsB_filter_button, List.filter, isButtonEvent]
    · simp [sendJobApplicationB, startEvents, finishEvents,
        getLast?_cons_append_append]

/-- C2: in Variant A, when the resume-text fetch resolves with a non-OK
status, the attempt aborts immediately: the resume fetch is the only network
request of the whole run (no cover-letter fetch, no subject generation, no
dispatch), the try-block failure carries stage DocumentFetch, and the alert
surfaced to the user is the resume-specific document-fetch message. -/
theorem c2_resume_fetch_failure_aborts (jt co te : String) (button : Option String)
    (st : Nat) (stx raw : String) (body : JsonBody FilePayload)
    (coverOut : FetchOutcome FilePayload) (subjOut : FetchOutcome SubjectPayload)
    (emailOut : FetchOutcome EmailPayload) :
    (let run := sendJobApplicationA jt co te button
       ⟨.response false st stx raw body, coverOut, subjOut, emailOut⟩
     run.events.filter isRequestEvent = [Event.request (.getFileText "resume.pdf")] ∧
     run.result = .error ⟨.DocumentFetch, none, "Resume fetch failed: " ++ stx⟩ ∧
     Event.alertShown "❌ Failed to send job application. Could not fetch resume." ∈
       run.events) := by
  have hres : strIncludes ("Resume fetch failed: " ++ stx) "Resume" = true :=
    strIncludes_append_left _ _ _ (by decide)
  have hmsg : "❌ " ++ catchMessageA ("Resume fetch failed: " ++ stx) =
      "❌ Failed to send job application. Could not fetch resume." := by
    simp only [catchMessageA, hres, if_true]
    decide
  refine ⟨?_, ?_, ?_⟩ <;>
    cases button <;>
      simp [sendJobApplicationA, tryBodyA, seqStep, fetchFileStep, startEvents,
        finishEvents, catchEventsA, hmsg, List.filter, isRequestEvent]

/-- Characterization of the second component of Variant A's dispatch step on
a response with a parsed payload. -/
theorem sendEmailStepA_snd_parsed (te subj cover : String) (ok : Bool) (st : Nat)
    (stx raw : String) (d : EmailPayload) :
    (sendEmailStepA te subj cover (.response ok st stx raw (.parsed d))).2 =
      (if ok && (d.success == some true) then
        .ok ⟨d.demo_mode == some true, d.subject, d.attachment⟩
      else
        .error ⟨.Dispatch,
          some (if authCondA (errorDetailOf d) then .AuthFailure else .GenericFailure),
          "Email sending failed: " ++ errorDetailOf d⟩) := by
  simp only [sendEmailStepA]
  cases hc : (ok && (d.success == some true))
  · simp only [Bool.false_eq_true, if_false]
    split <;> rename_i h <;> simp [h]
  · simp

/-- Characterization of the second component of Variant B's dispatch step on
a response with a parsed payload. -/
theorem sendEmailStepB_snd_parsed (jt co te cl : String) (ok : Bool) (st : Nat)
    (stx raw : String) (d : EmailPayload) :
    (sendEmailStepB jt co te cl (.response ok st stx raw (.parsed d))).2 =
      (if ok && (d.success == some true) then
        .ok ⟨d.demo_mode == some true, d.subject, d.attachment⟩
      else
        .error ⟨.Dispatch,
          some (if authCondB (errorDetailOf d) then .AuthFailure else .GenericFailure),
          "Email sending failed: " ++ errorDetailOf d⟩) := by
  simp only [sendEmailStepB]
  cases hc : (ok && (d.success == some true))
  · simp only [Bool.false_eq_true, if_false]
    split <;> rename_i h <;> simp [h]
  · simp

/-- C3: for the dispatch step of either variant, with a parsed response
payload, the try-block result is a success exactly when the transport ok flag
is true and the payload success flag is present and true; every other
combination of ok flag and success flag is a failure whose stage is Dispatch;
and in the success case the outcome constructor is the same for both demo_mode
values, a truthy demo_mode only switching the alert wording to "prepared" with
the demo-mode suffix and note, a false demo_mode to "sent" with empty
suffixes. -/
theorem c3_dispatch_success_iff_ok_and_flag (te subj cover jt co cl : String) (ok : Bool)
    (st : Nat) (stx raw : String) (d : EmailPayload)
    (succ : Option Bool) (sj att : String) (det msgf : Option String) :
    (isOkResult (sendEmailStepA te subj cover (.response ok st stx raw (.parsed d))).2 =
      (ok && (d.success == some true))) ∧
    (resStage (sendEmailStepA te subj cover (.response ok st stx raw (.parsed d))).2 =
      if ok && (d.success == some true) then none else some .Dispatch) ∧
    (isOkResult (sendEmailStepB jt co te cl (.response ok st stx raw (.parsed d))).2 =
      (ok && (d.success == some true))) ∧
    (resStage (sendEmailStepB jt co te cl (.response ok st stx raw (.parsed d))).2 =
      if ok && (d.success == some true) then none else some .Dispatch) ∧
    ((sendEmailStepA te subj cover (.response true st stx raw
        (.parsed ⟨some true, d.demo_mode, sj, att, det, msgf⟩))).2 =
      .ok ⟨d.demo_mode == some true, sj, att⟩) ∧
    ((sendEmailStepB jt co te cl (.response true st stx raw
        (.parsed ⟨some true, d.demo_mode, sj, att, det, msgf⟩))).2 =
      .ok ⟨d.demo_mode == some true, sj, att⟩) ∧
    (successAlertA te ⟨succ, some true, sj, att, det, msgf⟩ =
      "✅ Application " ++ "prepared" ++ " successfully" ++ " (Demo Mode)" ++
        "!\n\n📧 To: " ++ te ++ "\n📧 Subject: " ++ sj ++ "\n📄 Resume: Attached as " ++
        att ++ "\n📄 Cover Letter: Used from uploads/cover_template.docx\n\n" ++
        "Note: Configure Gmail credentials in .env to enable real email sending.") ∧
    (successAlertA te ⟨succ, some false, sj, att, det, msgf⟩ =
      "✅ Application " ++ "sent" ++ " successfully" ++ "" ++ "!\n\n📧 To: " ++ te ++
        "\n📧 Subject: " ++ sj ++ "\n📄 Resume: Attached as " ++ att ++
        "\n📄 Cover Letter: Used from uploads/cover_template.docx\n\n" ++ "") ∧
    (successAlertB te ⟨succ, some true, sj, att, det, msgf⟩ =
      "✅ Application " ++ "prepared" ++ " successfully" ++ " (Demo Mode)" ++
        "!\n\n📧 To: " ++ te ++ "\n📧 Subject: " ++ sj ++ "\n📄 Attachment: " ++ att ++
        "\n\n" ++
        "Note: Configure Gmail credentials in .env to enable real email sending.") ∧
    (successAlertB te ⟨succ, some false, sj, att, det, msgf⟩ =
      "✅ Application " ++ "sent" ++ " successfully" ++ "" ++ "!\n\n📧 To: " ++ te ++
        "\n📧 Subject: " ++ sj ++ "\n📄 Attachment: " ++ att ++ "\n\n" ++ "") := by
  refine ⟨?_, ?_, ?_, ?_, ?_, ?_, rfl, rfl, rfl, rfl⟩
  · rw [sendEmailStepA_snd_parsed]
    cases hc : (ok && (d.success == some true)) <;> simp [hc, isOkResult]
  · rw [sendEmailStepA_snd_parsed]
    cases hc : (ok && (d.success == some true)) <;> simp [hc, resStage]
  · rw [sendEmailStepB_snd_parsed]
    cases hc : (ok && (d.success == some true)) <;> simp [hc, isOkResult]
  · rw [sendEmailStepB_snd_parsed]
    cases hc : (ok && (d.success == some true)) <;> simp [hc, resStage]
  · rw [sendEmailStepA_snd_parsed]
    simp
  · rw [sendEmailStepB_snd_parsed]
    simp

/-- C4: on the Variant A full success path, when both document fetches
succeed, subject generation succeeds, and dispatch resolves with an OK status
and a parsed payload with success true and demo_mode false, the try-block
result is the success outcome and the success alert uses the status text
"sent" with empty demo-mode suffix and empty demo-mode note. -/
theorem c4_variantA_success_sent (jt co te : String) (button : Option String)
    (rt ct sj esubj att : String) (det msgf : Option String)
    (st1 st2 st3 st4 : Nat) (sx1 sx2 sx3 sx4 r1 r2 r3 r4 : String) :
    (let d : EmailPayload := ⟨some true, some false, esubj, att, det, msgf⟩
     let run := sendJobApplicationA jt co te button
       ⟨.response true st1 sx1 r1 (.parsed ⟨rt⟩),
        .response true st2 sx2 r2 (.parsed ⟨ct⟩),
        .response true st3 sx3 r3 (.parsed ⟨sj⟩),
        .response true st4 sx4 r4 (.parsed d)⟩
     run.result = .ok ⟨false, esubj, att⟩ ∧
     Event.alertShown (successAlertA te d) ∈ run.events ∧
     successAlertA te d =
       "✅ Application " ++ "sent" ++ " successfully" ++ "" ++ "!\n\n📧 To: " ++ te ++
         "\n📧 Subject: " ++ esubj ++ "\n📄 Resume: Attached as " ++ att ++
         "\n📄 Cover Letter: Used from uploads/cover_template.docx\n\n" ++ "") := by
  refine ⟨rfl, ?_, rfl⟩
  cases button <;>
    simp [sendJobApplicationA, tryBodyA, seqStep, fetchFileStep, generateSubjectStep,
      sendEmailStepA, startEvents, finishEvents, catchEventsA]

/-- C5: in both variants, every dispatch failure whose non-empty detail field
contains the indicator "authentication failed" takes the authentication
branch: the try-block failure has stage Dispatch and kind AuthFailure, the
alert shown is the authentication alert carrying Gmail-credential remediation
guidance, and that alert differs from the generic dispatch-failure alert for
the same detail. -/
theorem c5_auth_failure_dispatch (te subj cover jt co cl : String) (ok : Bool)
    (st : Nat) (stx raw : String) (dm : Option Bool) (sj att : String)
    (msgf : Option String) (det : String)
    (hne : det ≠ "") (hauth : strIncludes det "authentication failed" = true) :
    (sendEmailStepA te subj cover (.response ok st stx raw
        (.parsed ⟨some false, dm, sj, att, some det, msgf⟩))) =
      ([Event.request (.sendEmail (splitEmails te) subj cover "uploads/resume.pdf"),
        Event.alertShown (authAlertA det)],
       .error ⟨.Dispatch, some .AuthFailure, "Email sending failed: " ++ det⟩) ∧
    (sendEmailStepB jt co te cl (.response ok st stx raw
        (.parsed ⟨some false, dm, sj, att, some det, msgf⟩))) =
      ([Event.request (.sendEmail (splitEmails te)
          ("Job Application: " ++ jt ++ " at " ++ co) cl resumeFilePath),
        Event.alertShown (authAlertB det)],
       .error ⟨.Dispatch, some .AuthFailure, "Email sending failed: " ++ det⟩) ∧
    strIncludes (authAlertA det) "Please check your Gmail credentials" = true ∧
    strIncludes (authAlertB det) "Update GMAIL_APP_PASSWORD" = true ∧
    authAlertA det ≠ "❌ Email sending failed: " ++ det ∧
    authAlertB det ≠ "❌ Email sending failed: " ++ det := by
  have hd : errorDetailOf ⟨some false, dm, sj, att, some det, msgf⟩ = det := by
    simp [errorDetailOf, jsOrStr, hne]
  refine ⟨?_, ?_, ?_, ?_, ?_, ?_⟩
  · simp [sendEmailStepA, hd, authCondA, hauth]
  · simp [sendEmailStepB, hd, authCondB, hauth]
  · exact strIncludes_append_right _ _ _ (by decide)
  · exact strIncludes_append_right _ _ _ (by decide)
  · intro h
    simp only [authAlertA] at h
    have hl := congrArg String.length h
    have h1 : ("❌ Gmail Authentication Failed!\n\n" : String).length = 32 := rfl
    have h2 : ("\n\n📧 Please check your Gmail credentials in .env file." : String).length = 53 :=
      rfl
    have h3 : ("❌ Email sending failed: " : String).length = 24 := rfl
    simp only [String.length_append, h1, h2, h3] at hl
    omega
  · intro h
    simp only [authAlertB] at h
    have hl := congrArg String.length h
    have h1 : ("❌ Gmail Authentication Failed!\n\n" : String).length = 32 := rfl
    have h2 : ("\n\n📧 This means the Gmail credentials in .env need to be updated.\n\n🔧 Required Steps:\n1. Enable 2FA on your Gmail account\n2. Generate App Password: https://myaccount.google.com/apppasswords\n3. Update GMAIL_APP_PASSWORD in .env file" : String).length = 229 :=
      rfl
    have h3 : ("❌ Email sending failed: " : String).length = 24 := rfl
    simp only [String.length_append, h1, h2, h3] at hl
    omega

/-- C5 witness: the authentication-failure hypotheses hold at the concrete
detail "authentication failed: x", and the theorem applies there. -/
theorem c5_auth_failure_dispatch_witness :
    (("authentication failed: x" : String) ≠ "" ∧
      strIncludes "authentication failed: x" "authentication failed" = true) ∧
    (sendEmailStepA "a@x.com" "S" "C" (.response false 500 "err" ""
        (.parsed ⟨some false, none, "", "", some "authentication failed: x", none⟩))) =
      ([Event.request (.sendEmail (splitEmails "a@x.com") "S" "C" "uploads/resume.pdf"),
        Event.alertShown (authAlertA "authentication failed: x")],
       .error ⟨.Dispatch, some .AuthFailure,
         "Email sending failed: " ++ "authentication failed: x"⟩) ∧
    authAlertA "authentication failed: x" ≠
      "❌ Email sending failed: " ++ "authentication failed: x" :=
  ⟨⟨by decide, by decide⟩,
   (c5_auth_failure_dispatch "a@x.com" "S" "C" "T" "Co" "CL" false 500 "err" "" none "" ""
     none "authentication failed: x" (by decide) (by decide)).1,
   (c5_auth_failure_dispatch "a@x.com" "S" "C" "T" "Co" "CL" false 500 "err" "" none "" ""
     none "authentication failed: x" (by decide) (by decide)).2.2.2.2.1⟩

/-- C6 counterexample: a search response with status 422 whose JSON body
carries the truthy detail "Invalid input" makes searchJobs throw that detail
verbatim, and the message shown to the user is "Invalid input", which is not
the required-field validation message and does not reference required fields;
so the 422 classification does not hold regardless of the raw body content. -/
theorem c6_search_422_detail_overrides :
    searchThrownMessage 422 "Unprocessable Entity" (.parsed ⟨some "Invalid input"⟩) =
      "Invalid input" ∧
    getErrorMessage
        (searchThrownMessage 422 "Unprocessable Entity" (.parsed ⟨some "Invalid input"⟩)) =
      "Invalid input" ∧
    getErrorMessage
        (searchThrownMessage 422 "Unprocessable Entity" (.parsed ⟨some "Invalid input"⟩)) ≠
      "Please check your input data. Job title and location are required fields." ∧
    strIncludes
        (getErrorMessage
          (searchThrownMessage 422 "Unprocessable Entity" (.parsed ⟨some "Invalid input"⟩)))
        "required" = false := by
  refine ⟨by decide, by decide, by decide, by decide⟩

/-- C6 amended: for every 422 search response whose error body supplies no
truthy detail field, and whose composed HTTP message does not contain the
network-error or timeout indicator substrings matched by the earlier
classifier rules, the message shown to the user is the required-field
validation message.  (When a truthy detail field is present, that detail text
replaces the HTTP message and is shown instead unless it happens to match a
classifier rule.) -/
theorem c6_search_422_amended (sttxt : String) (errBody : JsonBody SearchErrorBody)
    (hdet : noTruthyDetail errBody = true)
    (h1 : strIncludes ("HTTP 422: " ++ sttxt) "Failed to fetch" = false)
    (h2 : strIncludes ("HTTP 422: " ++ sttxt) "NetworkError" = false)
    (h3 : strIncludes ("HTTP 422: " ++ sttxt) "CORS" = false)
    (h4 : strIncludes ("HTTP 422: " ++ sttxt) "timeout" = false) :
    getErrorMessage (searchThrownMessage 422 sttxt errBody) =
      "Please check your input data. Job title and location are required fields." := by
  have hlit : ("HTTP " ++ toString (422 : Nat) ++ ": ") = "HTTP 422: " := by decide
  have hbase : searchThrownMessage 422 sttxt errBody = "HTTP 422: " ++ sttxt := by
    rcases errBody with b | m
    · rcases b with ⟨d⟩
      cases d with
      | none => simp [searchThrownMessage, hlit]
      | some s =>
        have hs : (s == "") = true := by simpa [noTruthyDetail] using hdet
        simp [searchThrownMessage, hs, hlit]
    · simp [searchThrownMessage, hlit]
  have hten : ("HTTP 422: " : String).length = 10 := rfl
  have hne : (("HTTP 422: " ++ sttxt) == "") = false := by
    rw [beq_eq_false_iff_ne]
    intro hcontra
    have hl := congrArg String.length hcontra
    have hzero : ("" : String).length = 0 := rfl
    simp only [String.length_append, hten, hzero] at hl
    omega
  have h422 : strIncludes ("HTTP 422: " ++ sttxt) "422" = true :=
    strIncludes_append_left _ _ _ (by decide)
  rw [hbase]
  simp [getErrorMessage, hne, h1, h2, h3, h4, h422]

/-- C6 witness: the amended hypotheses hold for a 422 response with the usual
status text and an error body without a detail field, and the theorem applies
there. -/
theorem c6_search_422_amended_witness :
    (noTruthyDetail (JsonBody.parsed ⟨none⟩) = true ∧
     strIncludes ("HTTP 422: " ++ "Unprocessable Entity") "Failed to fetch" = false ∧
     strIncludes ("HTTP 422: " ++ "Unprocessable Entity") "NetworkError" = false ∧
     strIncludes ("HTTP 422: " ++ "Unprocessable Entity") "CORS" = false ∧
     strIncludes ("HTTP 422: " ++ "Unprocessable Entity") "timeout" = false) ∧
    getErrorMessage (searchThrownMessage 422 "Unprocessable Entity" (.parsed ⟨none⟩)) =
      "Please check your input data. Job title and location are required fields." :=
  ⟨⟨by decide, by decide, by decide, by decide, by decide⟩,
   c6_search_422_amended "Unprocessable Entity" (.parsed ⟨none⟩) (by decide) (by decide)
     (by decide) (by decide) (by decide)⟩

/-- C7: recipient-address splitting in both variants maps the input
"a@x.com, b@y.com" to exactly the two-element sequence with both addresses
trimmed and in order, and that sequence is what either dispatch step puts
into the to_emails field of its send_email request (the request being the
first event of the dispatch step whatever the network outcome). -/
theorem c7_recipient_splitting (subj cover jt co cl : String)
    (outA outB : FetchOutcome EmailPayload) :
    splitEmails "a@x.com, b@y.com" = ["a@x.com", "b@y.com"] ∧
    (sendEmailStepA "a@x.com, b@y.com" subj cover outA).1.head? =
      some (Event.request (.sendEmail ["a@x.com", "b@y.com"] subj cover
        "uploads/resume.pdf")) ∧
    (sendEmailStepB jt co "a@x.com, b@y.com" cl outB).1.head? =
      some (Event.request (.sendEmail ["a@x.com", "b@y.com"]
        ("Job Application: " ++ jt ++ " at " ++ co) cl resumeFilePath)) := by
  have hsplit : splitEmails "a@x.com, b@y.com" = ["a@x.com", "b@y.com"] := by decide
  refine ⟨hsplit, ?_, ?_⟩
  · rcases outA with m | ⟨ok, st, stx, raw, d | m⟩ <;>
      simp only [sendEmailStepA, hsplit] <;>
      first
        | rfl
        | ((repeat' split) <;> rfl)
  · rcases outB with m | ⟨ok, st, stx, raw, d | m⟩ <;>
      simp only [sendEmailStepB, hsplit] <;>
      first
        | rfl
        | ((repeat' split) <;> rfl)

theorem sentRequests_append (l1 l2 : List Event) :
    sentRequests (l1 ++ l2) = sentRequests l1 ++ sentRequests l2 :=
  List.filterMap_append _ _ _

theorem sentRequests_sendEmailStepB (jt co te cl : String)
    (out : FetchOutcome EmailPayload) :
    sentRequests (sendEmailStepB jt co te cl out).1 =
      [(splitEmails te, "Job Application: " ++ jt ++ " at " ++ co, cl, resumeFilePath)] := by
  rcases out with m | ⟨ok, st, stx, raw, d | m⟩ <;>
    simp only [sendEmailStepB] <;>
    first
      | rfl
      | ((repeat' split) <;> rfl)

theorem sentRequests_startEvents (b : Option String) :
    sentRequests (startEvents b) = [] := by
  cases b <;> rfl

theorem sentRequests_finishEvents (b : Option String) :
    sentRequests (finishEvents b) = [] := by
  cases b <;> rfl

theorem sentRequests_catchEventsB (r : Except Failure SendSuccess) :
    sentRequests (catchEventsB r) = [] := by
  cases r <;> rfl

/-- C8: in Variant B, whenever cover letter generation succeeds and returns a
cover letter, the run dispatches exactly one send_email request, whose subject
is exactly the template string built from the job title and company and whose
body is the generated cover letter unmodified (and whose recipient list is the
split input and whose attachment is the hard-coded resume path). -/
theorem c8_variantB_subject_and_body (jt co te cl : String) (button : Option String)
    (st : Nat) (stx raw : String) (emailOut : FetchOutcome EmailPayload) :
    sentRequests (sendJobApplicationB jt co te button
        ⟨.response true st stx raw (.parsed ⟨some cl⟩), emailOut⟩).events =
      [(splitEmails te, "Job Application: " ++ jt ++ " at " ++ co, cl, resumeFilePath)] := by
  have hcover : generateCoverStep jt co (.response true st stx raw (.parsed ⟨some cl⟩)) =
      ([Event.request (.generateCover jt co hardCodedResumeText)], .ok cl) := rfl
  have hreq : sentRequests [Event.request (.generateCover jt co hardCodedResumeText)] = [] :=
    rfl
  simp only [sendJobApplicationB, tryBodyB, seqStep, hcover]
  simp only [sentRequests_append, sentRequests_startEvents, sentRequests_finishEvents,
    sentRequests_catchEventsB, sentRequests_sendEmailStepB, hreq]
  simp

/-- C9: the result renderer maps a missing or empty listing sequence to
exactly the single placeholder row, and a sequence of length N greater than 0
to exactly the N job rows in input order with no placeholder row; the rendered
rows are a function of the new listing sequence alone, the previous rows being
fully replaced. -/
theorem c9_render_rows (j : JobListing) (js : List JobListing) :
    displayJobResults none = [RenderedRow.placeholderRow] ∧
    displayJobResults (some []) = [RenderedRow.placeholderRow] ∧
    displayJobResults (some (j :: js)) = (j :: js).map jobRowOf ∧
    (displayJobResults (some (j :: js))).length = js.length + 1 ∧
    (displayJobResults (some (j :: js))).filter isPlaceholderRow = [] := by
  refine ⟨rfl, rfl, ?_, ?_, ?_⟩
  · simp [displayJobResults]
  · simp [displayJobResults]
  · simp only [displayJobResults, List.length_cons]
    rw [if_neg (by omega)]
    induction (j :: js) with
    | nil => rfl
    | cons x xs ih => simp [jobRowOf, isPlaceholderRow, ih]

theorem coverRequests_append (l1 l2 : List Event) :
    coverRequests (l1 ++ l2) = coverRequests l1 ++ coverRequests l2 :=
  List.filterMap_append _ _ _

theorem coverRequests_sendEmailStepB (jt co te cl : String)
    (out : FetchOutcome EmailPayload) :
    coverRequests (sendEmailStepB jt co te cl out).1 = [] := by
  rcases out with m | ⟨ok, st, stx, raw, d | m⟩ <;>
    simp only [sendEmailStepB] <;>
    first
      | rfl
      | ((repeat' split) <;> rfl)

theorem coverRequests_startEvents (b : Option String) :
    coverRequests (startEvents b) = [] := by
  cases b <;> rfl

theorem coverRequests_finishEvents (b : Option String) :
    coverRequests (finishEvents b) = [] := by
  cases b <;> rfl

theorem coverRequests_catchEventsB (r : Except Failure SendSuccess) :
    coverRequests (catchEventsB r) = [] := by
  cases r <;> rfl

theorem sendEmailStepB_filter_fileText (jt co te cl : String)
    (out : FetchOutcome EmailPayload) :
    (sendEmailStepB jt co te cl out).1.filter isFileTextRequest = [] := by
  rcases out with m | ⟨ok, st, stx, raw, d | m⟩ <;>
    simp only [sendEmailStepB] <;>
    first
      | rfl
      | ((repeat' split) <;> rfl)

theorem catchEventsB_filter_fileText (r : Except Failure SendSuccess) :
    (catchEventsB r).filter isFileTextRequest = [] := by
  cases r <;> rfl

/-- C10: in Variant B, every run issues exactly one content-generation
request whose resume_text field is the one hard-coded constant string,
independent of the job listing, the trigger element and the environment, and
no run ever issues a document-fetch (get_file_text) request; the generated
cover letter therefore cannot depend on the actually uploaded resume. -/
theorem c10_variantB_constant_resume_text (jt co te : String) (button : Option String)
    (env : EnvB) :
    coverRequests (sendJobApplicationB jt co te button env).events =
      [(jt, co, hardCodedResumeText)] ∧
    (sendJobApplicationB jt co te button env).events.filter isFileTextRequest = [] := by
  constructor
  · simp only [sendJobApplicationB, coverRequests_append]
    rw [coverRequests_startEvents, coverRequests_finishEvents, coverRequests_catchEventsB]
    simp only [tryBodyB, seqStep_fst]
    rw [coverRequests_append]
    have h1 : coverRequests (generateCoverStep jt co env.cover).1 =
        [(jt, co, hardCodedResumeText)] := rfl
    rw [h1]
    have hnil : coverRequests ([] : List Event) = [] := rfl
    cases h : (generateCoverStep jt co env.cover).2 <;>
      simp [coverRequests_sendEmailStepB, hnil]
  · simp only [sendJobApplicationB, List.filter_append]
    rw [catchEventsB_filter_fileText]
    have hs : (startEvents button).filter isFileTextRequest = [] := by cases button <;> rfl
    have hf : (finishEvents button).filter isFileTextRequest = [] := by cases button <;> rfl
    rw [hs, hf]
    simp only [tryBodyB, seqStep_fst, List.filter_append]
    have h1 : (generateCoverStep jt co env.cover).1.filter isFileTextRequest = [] := rfl
    rw [h1]
    cases h : (generateCoverStep jt co env.cover).2 <;>
      simp [sendEmailStepB_filter_fileText]

end JobAI
